import Mathlib

/-!
Verification of the water-demand forecast backend (`src/backend/main.py`).

Modelling conventions, shared by every definition below:

* Python `float` arithmetic is modelled exactly over `ℚ`.  Every numeric
  literal of the source (`0.12`, `1.28`, `13.9`, …) is carried as the exact
  rational it denotes; the threshold comparisons the program performs compare
  a value against the very literal it was built from, so the `ℚ` model and
  the IEEE-754 run agree on every branch taken.
* Python's `round` is round-half-to-even (`pyRound`); `round(x, n)` is
  `pyRound (x * 10^n) / 10^n`.
* Calendar dates travel through the program as `"%Y-%m-%d"` strings that are
  parsed back with `strptime`; the round trip is the identity, so dates are
  modelled by their proleptic-Gregorian ordinal (`datetime.date.toordinal`),
  a `ℕ`.  Ordinal 1 is 0001-01-01, a Monday, hence
  `weekday d = (d + 6) % 7` with Monday = 0 exactly as in Python.
* The external collaborators (the HTTP weather provider, the wall clock, the
  pickled scaler/model pair, `np.sin`/`np.cos`/`np.sqrt`) are inputs: the
  provider's reply and the clock's civil date are arguments, the opaque
  numeric artifacts are function-valued parameters.
* A Python exception is an `Except.error`; a function that cannot raise
  returns its value directly.
-/

namespace WaterForecast

/-- Calendar date as its Python `toordinal` value (0001-01-01 has ordinal 1). -/
abbrev Date := ℕ

/-- Python `date.weekday()`: Monday = 0 … Sunday = 6.  Ordinal 1 is a Monday. -/
def weekday (d : Date) : ℕ := (d + 6) % 7

/-- Gregorian `(year, month, day)` of an ordinal, by the standard
civil-from-days computation (all quantities stay nonnegative for `d ≥ 0`
because the epoch is shifted to 0000-03-01, ordinal −305). -/
def civilFromOrdinal (d : Date) : ℕ × ℕ × ℕ :=
  let z := d + 305
  let era := z / 146097
  let doe := z % 146097
  let yoe := (doe - doe / 1460 + doe / 36524 - doe / 146096) / 365
  let y := yoe + era * 400
  let doy := doe - (365 * yoe + yoe / 4 - yoe / 100)
  let mp := (5 * doy + 2) / 153
  let day := doy - (153 * mp + 2) / 5 + 1
  let m := if mp < 10 then mp + 3 else mp - 9
  (if m ≤ 2 then y + 1 else y, m, day)

/-- Month number (1–12) of an ordinal date. -/
def monthOf (d : Date) : ℕ := (civilFromOrdinal d).2.1

/-- Day of month of an ordinal date. -/
def dayOfMonth (d : Date) : ℕ := (civilFromOrdinal d).2.2

/-- Ordinal of January 1st of a given year. -/
def jan1Ordinal (y : ℕ) : ℕ :=
  365 * (y - 1) + (y - 1) / 4 - (y - 1) / 100 + (y - 1) / 400 + 1

/-- Pandas `Date.dt.dayofyear`: 1 for January 1st. -/
def dayOfYear (d : Date) : ℕ := d - jan1Ordinal (civilFromOrdinal d).1 + 1

/-- Python `strftime("%a").upper()` of a weekday number. -/
def weekdayAbbrevUpper (w : ℕ) : String :=
  match w with
  | 0 => "MON" | 1 => "TUE" | 2 => "WED" | 3 => "THU"
  | 4 => "FRI" | 5 => "SAT" | _ => "SUN"

/-- Python `strftime("%b")` of a month number. -/
def monthAbbrev (m : ℕ) : String :=
  match m with
  | 1 => "Jan" | 2 => "Feb" | 3 => "Mar" | 4 => "Apr"
  | 5 => "May" | 6 => "Jun" | 7 => "Jul" | 8 => "Aug"
  | 9 => "Sep" | 10 => "Oct" | 11 => "Nov" | _ => "Dec"

/-- Python 3 `round` to an integer: round half to even.  (`Rat.floor` is used
rather than `Int.floor` so the definition evaluates by kernel reduction; the
two agree, see `ratFloor_eq_floor` below.) -/
def pyRound (q : ℚ) : ℤ :=
  let f := q.floor
  let r := q - f
  if r < 1/2 then f
  else if 1/2 < r then f + 1
  else if 2 ∣ f then f else f + 1

/-- Python `round(x, 1)`. -/
def round1 (q : ℚ) : ℚ := (pyRound (q * 10) : ℚ) / 10

/-- Python `round(x, 2)`. -/
def round2 (q : ℚ) : ℚ := (pyRound (q * 100) : ℚ) / 100

/-- Mean of a list of rationals (pandas `.mean()`; empty input, which pandas
maps to NaN, is not exercised by any claim and yields `0` here via `x / 0 = 0`). -/
def listMean (l : List ℚ) : ℚ := l.sum / l.length

/-- Pandas `.tail(n)`: the last `min n (length)` elements. -/
def tailN (n : ℕ) (l : List ℚ) : List ℚ := l.drop (l.length - n)

/-- Sample variance (`ddof = 1`), the square of pandas `.std()`. -/
def sampleVar (l : List ℚ) : ℚ :=
  (l.map (fun x => (x - listMean l) ^ 2)).sum / (l.length - 1)

/-- One weather dictionary as produced by `fetch_weather_forecast` /
`generate_simulated_weather` (keys `date`, `temp_max`, `temp_min`,
`temp_mean`, `precipitation`, `condition`, `icon`). -/
structure WRec where
  date : Date
  temp_max : ℚ
  temp_min : ℚ
  temp_mean : ℚ
  precipitation : ℚ
  condition : String
  icon : String
deriving DecidableEq, Repr, Inhabited

/-- Lines 96–111: condition and icon from max temperature and precipitation. -/
def get_weather_condition (temp_max precipitation : ℚ) : String × String :=
  if precipitation > 1/10 then
    if precipitation > 5/10 then ("Rainy", "🌧️")
    else ("Showers", "🌦️")
  else if temp_max > 85 then ("Hot", "☀️")
  else if temp_max > 75 then ("Warm", "☀️")
  else if temp_max > 65 then ("Mild", "⛅")
  else if temp_max > 50 then ("Cool", "☁️")
  else ("Cold", "❄️")

/-- Lines 114–121: demand-level label and colour. -/
def get_demand_level (demand : ℚ) : String × String :=
  if demand < 12 then ("Low", "#22C55E")
  else if demand < 16 then ("Moderate", "#EAB308")
  else ("High", "#EF4444")

/-- Lines 194–205: the hardcoded January pattern table
`(temp_max, temp_min, precipitation, condition, icon)`. -/
def simPatterns : List (ℚ × ℚ × ℚ × String × String) :=
  [(58, 35, 0, "Cool", "☁️"),
   (68, 45, 0, "Mild", "⛅"),
   (62, 42, 0, "Cool", "☁️"),
   (55, 38, 1/10, "Showers", "🌦️"),
   (58, 33, 0, "Cool", "☁️"),
   (66, 39, 0, "Mild", "⛅"),
   (70, 48, 0, "Mild", "☀️"),
   (65, 45, 2/10, "Showers", "🌧️"),
   (55, 40, 0, "Cool", "☁️"),
   (60, 42, 0, "Cool", "⛅")]

/-- Lines 185–220 (`generate_simulated_weather`): ten records dated
`today + i`, fields copied from `simPatterns`.  `today` is the local civil
date `datetime.now(CENTRAL_TIMEZONE)` (UTC−6), passed in as the clock is an
external input. -/
def generate_simulated_weather (today : Date) : List WRec :=
  simPatterns.enum.map fun p =>
    { date := today + p.1
      temp_max := p.2.1
      temp_min := p.2.2.1
      temp_mean := (p.2.1 + p.2.2.1) / 2
      precipitation := p.2.2.2.1
      condition := p.2.2.2.2.1
      icon := p.2.2.2.2.2 }

/-- The `daily` object of a successful provider reply: the `time` array and
the three parallel value arrays, whose entries may be `null` (`none`) and
whose lengths may differ from `time`'s.  A key absent from the JSON is the
empty list, matching `daily.get(..., [])`. -/
structure DailyPayload where
  time : List Date
  temperature_2m_max : List (Option ℚ)
  temperature_2m_min : List (Option ℚ)
  precipitation_sum : List (Option ℚ)
deriving DecidableEq, Repr

/-- Line 156: `temp_max[i] if i < len(temp_max) and temp_max[i] is not None else 70`. -/
def tMaxAt (d : DailyPayload) (i : ℕ) : ℚ :=
  match d.temperature_2m_max.get? i with
  | some (some v) => v
  | _ => 70

/-- Line 157: the same defaulting for `temp_min`, default 55. -/
def tMinAt (d : DailyPayload) (i : ℕ) : ℚ :=
  match d.temperature_2m_min.get? i with
  | some (some v) => v
  | _ => 55

/-- Line 158: the same defaulting for `precipitation_sum`, default 0. -/
def precipAt (d : DailyPayload) (i : ℕ) : ℚ :=
  match d.precipitation_sum.get? i with
  | some (some v) => v
  | _ => 0

/-- Lines 159–169: one loop iteration of the success path.  Condition and
icon come from the raw (pre-rounding) values; the stored numeric fields are
rounded (`round(t, 1)` for temperatures, `round(p, 2)` for precipitation). -/
def mkRecFromRaw (date : Date) (t_max t_min p : ℚ) : WRec :=
  { date := date
    temp_max := round1 t_max
    temp_min := round1 t_min
    temp_mean := round1 ((t_max + t_min) / 2)
    precipitation := round2 p
    condition := (get_weather_condition t_max p).1
    icon := (get_weather_condition t_max p).2 }

/-- Lines 154–172: the success-path loop over `range(len(dates))`. -/
def successRecords (d : DailyPayload) : List WRec :=
  (List.range d.time.length).map fun i =>
    mkRecFromRaw (d.time.getD i 0) (tMaxAt d i) (tMinAt d i) (precipAt d i)

/-- Outcome of the single outbound HTTP attempt, an external input:
`timeout` is `httpx.TimeoutException`, `httpError` is the
`HTTPStatusError` raised by `raise_for_status()` on a non-2xx status,
`badJson` is any other exception while obtaining or decoding the body, and
`payload` is a decoded 2xx reply. -/
inductive FetchOutcome where
  | timeout : FetchOutcome
  | httpError (status : ℕ) : FetchOutcome
  | badJson : FetchOutcome
  | payload (daily : DailyPayload) : FetchOutcome
deriving DecidableEq, Repr

/-- Lines 124–182 (`fetch_weather_forecast`): on a decoded reply with a
non-empty `time` array, map each day; on an empty/missing `time` array or on
any of the three exception paths, return the simulated sequence. -/
def fetch_weather_forecast (outcome : FetchOutcome) (today : Date) : List WRec :=
  match outcome with
  | .timeout => generate_simulated_weather today
  | .httpError _ => generate_simulated_weather today
  | .badJson => generate_simulated_weather today
  | .payload d =>
      if d.time.isEmpty then generate_simulated_weather today
      else successRecords d

/-- True on exactly the outcomes the source treats as failures of the
weather call: the three exception paths, and a reply whose `time` array is
missing or empty (lines 150–152, 174–182). -/
def fetchFailed (outcome : FetchOutcome) : Bool :=
  match outcome with
  | .timeout => true
  | .httpError _ => true
  | .badJson => true
  | .payload d => d.time.isEmpty

/-- One prediction dictionary (lines 298–303 / 332–337): keys `demand`,
`lower_bound`, `upper_bound`, `vs_average` (the last is Python's integer
`round`). -/
structure PredDict where
  demand : ℚ
  lower_bound : ℚ
  upper_bound : ℚ
  vs_average : ℤ
deriving DecidableEq, Repr

/-- Lines 317–337: one loop iteration of `generate_simulated_predictions`. -/
def simulatedPrediction (w : WRec) : PredDict :=
  let base_demand : ℚ := 25/2
  let temp_effect := (w.temp_max - 65) * (12/100)
  let precip_effect : ℚ := if w.precipitation > 1/10 then -2 else 0
  let weekend_effect : ℚ := if weekday w.date ≥ 5 then 1/2 else 0
  let demand := max 8 (min 25 (base_demand + temp_effect + precip_effect + weekend_effect))
  let lower := demand - 3/2
  let upper := demand + 3/2
  { demand := round2 demand
    lower_bound := round2 (max 0 lower)
    upper_bound := round2 upper
    vs_average := pyRound ((demand / (139/10) - 1) * 100) }

/-- Lines 312–339 (`generate_simulated_predictions`): the heuristic path,
one prediction per weather record (`avg_production = 13.9`). -/
def generate_simulated_predictions (weather_data : List WRec) : List PredDict :=
  weather_data.map simulatedPrediction

/-- A Python exception, carrying the offending name or key. -/
inductive PyError where
  | nameError (name : String) : PyError
  | keyError (key : String) : PyError
  | other (msg : String) : PyError
deriving DecidableEq, Repr

/-- One row of the feature dataframe built at lines 231–273.  The four
cyclic-encoding fields hold the arguments the source passes to
`np.sin`/`np.cos` applied through the opaque parameters `sin2pi`/`cos2pi`
(for `x ↦ sin (2·π·x)` and `x ↦ cos (2·π·x)`); `prod_rolling_std` fields
hold `sqrtQ` of the exact sample variance, `sqrtQ` being the opaque square
root `np`/pandas computes. -/
structure FeatureRow where
  temp_mean : ℚ
  temp_max : ℚ
  temp_min : ℚ
  precip_total : ℚ
  day_of_week : ℕ
  month : ℕ
  is_weekend : ℕ
  prod_lag1 : ℚ
  prod_lag2 : ℚ
  prod_lag3 : ℚ
  prod_lag7 : ℚ
  prod_lag14 : ℚ
  prod_lag30 : ℚ
  prod_rolling_mean_3 : ℚ
  prod_rolling_mean_7 : ℚ
  prod_rolling_mean_14 : ℚ
  prod_rolling_mean_30 : ℚ
  prod_rolling_std_7 : ℚ
  prod_rolling_std_14 : ℚ
  temp_rolling_mean_7 : ℚ
  temp_rolling_mean_14 : ℚ
  day_sin : ℚ
  day_cos : ℚ
  dow_sin : ℚ
  dow_cos : ℚ

/-- Pandas `series.rolling(k, min_periods=1).mean()`: entry `i` is the mean
of the trailing window `xs[max 0 (i+1-k) … i]` (lines 263–264). -/
def rollingMean (k : ℕ) (xs : List ℚ) : List ℚ :=
  (List.range xs.length).map fun i => listMean ((xs.take (i + 1)).drop (i + 1 - k))

/-- Lines 223–274 (`prepare_features`), actual behaviour.  The loop body
evaluates `date < today` (line 229), but `today` is bound nowhere in the
module — it is a local variable of `get_forecast` only — so the first
iteration raises `NameError`.  With an empty input the loop never runs and
the empty dataframe has no `temp_max` column, so line 263 raises `KeyError`.
Either way the function never returns a dataframe. -/
def prepare_features (weather_data : List WRec) (historical : List ℚ) :
    Except PyError (List FeatureRow) :=
  match weather_data, historical with
  | [], _ => Except.error (PyError.keyError "temp_max")
  | _ :: _, _ => Except.error (PyError.nameError "today")

/-- Mean of the last 7 historical production values
(`historical_df["Production_MG"].tail(7).mean()`, line 246). -/
def recentAvg (historical : List ℚ) : ℚ := listMean (tailN 7 historical)

/-- Standard deviation of the last 14 historical production values
(`….tail(14).std()`, line 247) as `sqrtQ` of the exact sample variance. -/
def recentStd (sqrtQ : ℚ → ℚ) (historical : List ℚ) : ℚ :=
  sqrtQ (sampleVar (tailN 14 historical))

/-- The dataframe-construction stage of `prepare_features` (lines 227–273)
with the free name `today` bound as a parameter, i.e. the computation the
`NameError` of `prepare_features` prevents from running.  Rows are built for
the records dated today or later (the line-229/230 filter), the production
columns are broadcast constants (lines 249–261), the temperature rolling
means run over the forecast batch itself (lines 263–264), and the cyclic
encodings use day-of-year and day-of-week (lines 269–272). -/
def prepare_features_rows (today : Date) (sin2pi cos2pi sqrtQ : ℚ → ℚ)
    (weather_data : List WRec) (historical : List ℚ) : List FeatureRow :=
  let kept := weather_data.filter fun w => ¬ w.date < today
  let avg_production := listMean historical
  let recent_avg := recentAvg historical
  let recent_std := recentStd sqrtQ historical
  let tmax := kept.map (·.temp_max)
  let roll7 := rollingMean 7 tmax
  let roll14 := rollingMean 14 tmax
  (List.range kept.length).map fun i =>
    let w := (kept.getD i default)
    { temp_mean := w.temp_mean
      temp_max := w.temp_max
      temp_min := w.temp_min
      precip_total := w.precipitation
      day_of_week := weekday w.date
      month := monthOf w.date
      is_weekend := if weekday w.date ≥ 5 then 1 else 0
      prod_lag1 := recent_avg
      prod_lag2 := recent_avg
      prod_lag3 := recent_avg
      prod_lag7 := recent_avg
      prod_lag14 := avg_production
      prod_lag30 := avg_production
      prod_rolling_mean_3 := recent_avg
      prod_rolling_mean_7 := recent_avg
      prod_rolling_mean_14 := avg_production
      prod_rolling_mean_30 := avg_production
      prod_rolling_std_7 := recent_std
      prod_rolling_std_14 := recent_std
      temp_rolling_mean_7 := roll7.getD i 0
      temp_rolling_mean_14 := roll14.getD i 0
      day_sin := sin2pi ((dayOfYear w.date : ℚ) / 365)
      day_cos := cos2pi ((dayOfYear w.date : ℚ) / 365)
      dow_sin := sin2pi ((weekday w.date : ℚ) / 7)
      dow_cos := cos2pi ((weekday w.date : ℚ) / 7) }

/-- Lines 289–305: post-processing of the raw model outputs — clamp to
`[4, 40]`, the `±1.28·residual_std` band with the lower bound floored at 0,
and `vs_average` against the all-time historical mean. -/
def postprocess (residual_std : ℚ) (historical : List ℚ)
    (predictions : List ℚ) (weather_data : List WRec) : List PredDict :=
  let avg_production := listMean historical
  (predictions.zip weather_data).map fun pw =>
    let pred := max 4 (min 40 pw.1)
    let lower := pred - (128/100) * residual_std
    let upper := pred + (128/100) * residual_std
    { demand := round2 pred
      lower_bound := round2 (max 0 lower)
      upper_bound := round2 upper
      vs_average := pyRound ((pred / avg_production - 1) * 100) }

/-- Lines 284–305, the body of the `try` block: build the feature dataframe,
then select the training columns, scale and predict — the pickled
`feature_columns`/`scaler`/`model` trio is opaque, modelled by the single
parameter `infer`, which may itself raise — and post-process. -/
def model_path (infer : List FeatureRow → Except PyError (List ℚ))
    (residual_std : ℚ) (weather_data : List WRec) (historical : List ℚ) :
    Except PyError (List PredDict) := do
  let pred_df ← prepare_features weather_data historical
  let predictions ← infer pred_df
  Except.ok (postprocess residual_std historical predictions weather_data)

/-- Lines 277–309 (`generate_predictions`): the simulated path when the
artifacts did not load, otherwise the model path with every exception routed
to the simulated path. -/
def generate_predictions (MODEL_LOADED : Bool)
    (infer : List FeatureRow → Except PyError (List ℚ)) (residual_std : ℚ)
    (weather_data : List WRec) (historical : List ℚ) : List PredDict :=
  if !MODEL_LOADED then generate_simulated_predictions weather_data
  else
    match model_path infer residual_std weather_data historical with
    | Except.ok results => results
    | Except.error _ => generate_simulated_predictions weather_data

/-- The `factors` dictionary of lines 374–378. -/
structure Factors where
  temperature : String
  precipitation : String
  day_type : String
deriving DecidableEq, Repr

/-- One `DayForecast` record (lines 74–87 / 380–402). -/
structure DayForecast where
  date : Date
  day_name : String
  day_number : ℕ
  month : String
  is_today : Bool
  demand : ℚ
  lower_bound : ℚ
  upper_bound : ℚ
  demand_level : String
  demand_color : String
  weather : WRec
  vs_average : ℤ
  factors : Factors
deriving DecidableEq, Repr

/-- Lines 370–402: assembly of a single `DayForecast` from one weather
record and its prediction, for a record already known to be today or later. -/
def mkDayForecast (today : Date) (w : WRec) (p : PredDict) : DayForecast :=
  let is_today := w.date = today
  let dl := get_demand_level p.demand
  { date := w.date
    day_name := if is_today then "TODAY" else weekdayAbbrevUpper (weekday w.date)
    day_number := dayOfMonth w.date
    month := monthAbbrev (monthOf w.date)
    is_today := is_today
    demand := p.demand
    lower_bound := p.lower_bound
    upper_bound := p.upper_bound
    demand_level := dl.1
    demand_color := dl.2
    weather := w
    vs_average := p.vs_average
    factors :=
      { temperature :=
          if w.temp_max > 75 then "high"
          else if w.temp_max < 60 then "low" else "moderate"
        precipitation := if w.precipitation > 5/100 then "yes" else "no"
        day_type := if weekday w.date ≥ 5 then "weekend" else "weekday" } }

/-- Lines 360–403, the assembly loop of the `/api/forecast` handler: zip the
weather records with their predictions, drop every date before `today`
(lines 366–368), and build the visible records.  `today` is
`datetime.now(CENTRAL_TIMEZONE).date()`, the local civil date in UTC−6,
passed in as the clock is an external input. -/
def assemble_forecasts (today : Date) (weather_data : List WRec)
    (predictions : List PredDict) : List DayForecast :=
  (weather_data.zip predictions).filterMap fun wp =>
    if wp.1.date < today then none
    else some (mkDayForecast today wp.1 wp.2)

end WaterForecast

namespace WaterForecast

/-! Shared arithmetic lemmas about the rounding model. -/

theorem ratFloor_eq_floor (q : ℚ) : q.floor = ⌊q⌋ :=
  (Rat.floor_def' q).trans Rat.floor_def.symm

theorem pyRound_add_even (q : ℚ) (k : ℤ) (hk : 2 ∣ k) :
    pyRound (q + k) = pyRound q + k := by
  have hfl : (q + (k : ℚ)).floor = q.floor + k := by
    rw [ratFloor_eq_floor, ratFloor_eq_floor]
    exact Int.floor_add_int q k
  have hr : q + (k : ℚ) - ((q.floor + k : ℤ) : ℚ) = q - (q.floor : ℚ) := by
    push_cast; ring
  simp only [pyRound, hfl, hr]
  split_ifs <;> omega

theorem pyRound_le_int (q : ℚ) (n : ℤ) (h : q ≤ (n : ℚ)) : pyRound q ≤ n := by
  have hfq : (q.floor : ℚ) ≤ q := by rw [ratFloor_eq_floor]; exact Int.floor_le q
  have hf : q.floor ≤ n := by
    have h2 : (q.floor : ℚ) ≤ (n : ℚ) := le_trans hfq h
    exact_mod_cast h2
  simp only [pyRound]
  split_ifs with h1 h2
  · exact hf
  · have h3 : (q.floor : ℚ) + 1/2 < (n : ℚ) := by linarith
    have h4 : (q.floor : ℚ) < (n : ℚ) := by linarith
    have h5 : q.floor < n := by exact_mod_cast h4
    omega
  · exact hf
  · have h0 : (1 : ℚ)/2 ≤ q - (q.floor : ℚ) := not_lt.mp h1
    have h3 : (q.floor : ℚ) + 1/2 ≤ (n : ℚ) := by linarith
    have h4 : (q.floor : ℚ) < (n : ℚ) := by linarith
    have h5 : q.floor < n := by exact_mod_cast h4
    omega

theorem int_le_pyRound (q : ℚ) (n : ℤ) (h : (n : ℚ) ≤ q) : n ≤ pyRound q := by
  have hq1 : q < (q.floor : ℚ) + 1 := by
    rw [ratFloor_eq_floor]; exact Int.lt_floor_add_one q
  have hfn : n ≤ q.floor := by
    have h3 : (n : ℚ) < ((q.floor + 1 : ℤ) : ℚ) := by push_cast; linarith
    have h4 : n < q.floor + 1 := by exact_mod_cast h3
    omega
  simp only [pyRound]
  split_ifs <;> omega
theorem round2_le_int (q : ℚ) (n : ℤ) (h : q ≤ (n : ℚ)) : round2 q ≤ (n : ℚ) := by
  have h1 : q * 100 ≤ ((n * 100 : ℤ) : ℚ) := by push_cast; linarith
  have h2 : pyRound (q * 100) ≤ n * 100 := pyRound_le_int _ _ h1
  have h3 : ((pyRound (q * 100) : ℤ) : ℚ) ≤ ((n * 100 : ℤ) : ℚ) := by exact_mod_cast h2
  unfold round2
  push_cast at h3 ⊢
  linarith

theorem int_le_round2 (q : ℚ) (n : ℤ) (h : (n : ℚ) ≤ q) : (n : ℚ) ≤ round2 q := by
  have h1 : ((n * 100 : ℤ) : ℚ) ≤ q * 100 := by push_cast; linarith
  have h2 : n * 100 ≤ pyRound (q * 100) := int_le_pyRound _ _ h1
  have h3 : ((n * 100 : ℤ) : ℚ) ≤ ((pyRound (q * 100) : ℤ) : ℚ) := by exact_mod_cast h2
  unfold round2
  push_cast at h3 ⊢
  linarith

theorem round2_sub_three_halves (q : ℚ) : round2 (q - 3/2) = round2 q - 3/2 := by
  unfold round2
  have h1 : (q - 3/2) * 100 = q * 100 + ((-150 : ℤ) : ℚ) := by push_cast; ring
  rw [h1, pyRound_add_even _ _ (by omega)]
  push_cast; ring

theorem round2_add_three_halves (q : ℚ) : round2 (q + 3/2) = round2 q + 3/2 := by
  unfold round2
  have h1 : (q + 3/2) * 100 = q * 100 + ((150 : ℤ) : ℚ) := by push_cast; ring
  rw [h1, pyRound_add_even _ _ (by omega)]
  push_cast; ring

/-- Claim C6: `get_weather_condition` is a pure total function matching the
threshold table exactly — precipitation above 0.5 is Rainy, precipitation in
(0.1, 0.5] is Showers, otherwise the temperature ladder 85/75/65/50 decides
Hot/Warm/Mild/Cool/Cold; (90, 0) is Hot with the sun icon, and
precipitation 0.6 is Rainy at every temperature. -/
theorem c6_weather_condition_table (t p : ℚ) :
    (5/10 < p → get_weather_condition t p = ("Rainy", "🌧️")) ∧
    (1/10 < p → p ≤ 5/10 → get_weather_condition t p = ("Showers", "🌦️")) ∧
    (p ≤ 1/10 → 85 < t → get_weather_condition t p = ("Hot", "☀️")) ∧
    (p ≤ 1/10 → t ≤ 85 → 75 < t → get_weather_condition t p = ("Warm", "☀️")) ∧
    (p ≤ 1/10 → t ≤ 75 → 65 < t → get_weather_condition t p = ("Mild", "⛅")) ∧
    (p ≤ 1/10 → t ≤ 65 → 50 < t → get_weather_condition t p = ("Cool", "☁️")) ∧
    (p ≤ 1/10 → t ≤ 50 → get_weather_condition t p = ("Cold", "❄️")) ∧
    get_weather_condition 90 0 = ("Hot", "☀️") ∧
    (get_weather_condition t (6/10)).1 = "Rainy" := by
  refine ⟨?_, ?_, ?_, ?_, ?_, ?_, ?_, ?_, ?_⟩ <;>
    first
      | (with_unfolding_all decide)
      | (intros; unfold get_weather_condition; split_ifs <;> first | rfl | linarith)

theorem c6_weather_condition_table_witness :
    get_weather_condition 90 0 = ("Hot", "☀️") ∧
    get_weather_condition 70 (6/10) = ("Rainy", "🌧️") :=
  ⟨(c6_weather_condition_table 90 0).2.2.2.2.2.2.2.1,
   (c6_weather_condition_table 70 (6/10)).1 (by with_unfolding_all decide)⟩

/-- Claim C7: `get_demand_level` classifies by the fixed thresholds with
strict boundaries — below 12 Low/green, in [12, 16) Moderate/yellow, at or
above 16 High/red — with the boundary instances 11.99, 12.0, 15.99, 16.0. -/
theorem c7_demand_level_thresholds (demand : ℚ) :
    (demand < 12 → get_demand_level demand = ("Low", "#22C55E")) ∧
    (12 ≤ demand → demand < 16 → get_demand_level demand = ("Moderate", "#EAB308")) ∧
    (16 ≤ demand → get_demand_level demand = ("High", "#EF4444")) ∧
    get_demand_level (1199/100) = ("Low", "#22C55E") ∧
    get_demand_level 12 = ("Moderate", "#EAB308") ∧
    get_demand_level (1599/100) = ("Moderate", "#EAB308") ∧
    get_demand_level 16 = ("High", "#EF4444") := by
  refine ⟨?_, ?_, ?_, ?_, ?_, ?_, ?_⟩ <;>
    first
      | (with_unfolding_all decide)
      | (intros; unfold get_demand_level; split_ifs <;> first | rfl | linarith)

theorem c7_demand_level_thresholds_witness :
    get_demand_level 11 = ("Low", "#22C55E") ∧
    get_demand_level 16 = ("High", "#EF4444") :=
  ⟨(c7_demand_level_thresholds 11).1 (by with_unfolding_all decide),
   (c7_demand_level_thresholds 16).2.2.1 (by with_unfolding_all decide)⟩

/-- Claim C4: the heuristic path computes, for every weather record, the
demand `12.5 + 0.12·(temp_max − 65) − (2 if precipitation > 0.1) +
(0.5 if weekend)` clamped to [8, 25] (the returned demand field is its
2-decimal rounding and stays in [8, 25], in particular never above 25),
`lower_bound = demand − 1.5`, `upper_bound = demand + 1.5`, and
`vs_average = round((demand/13.9 − 1)·100)` computed from the clamped
value, with `generate_simulated_predictions` applying this per record. -/
theorem c4_simulated_prediction_formula (w : WRec) :
    (simulatedPrediction w).demand
      = round2 (max 8 (min 25 (25/2 + (w.temp_max - 65) * (12/100)
          + (if w.precipitation > 1/10 then (-2 : ℚ) else 0)
          + (if weekday w.date ≥ 5 then (1/2 : ℚ) else 0)))) ∧
    8 ≤ (simulatedPrediction w).demand ∧
    (simulatedPrediction w).demand ≤ 25 ∧
    (simulatedPrediction w).lower_bound = (simulatedPrediction w).demand - 3/2 ∧
    (simulatedPrediction w).upper_bound = (simulatedPrediction w).demand + 3/2 ∧
    (simulatedPrediction w).vs_average
      = pyRound (((max 8 (min 25 (25/2 + (w.temp_max - 65) * (12/100)
          + (if w.precipitation > 1/10 then (-2 : ℚ) else 0)
          + (if weekday w.date ≥ 5 then (1/2 : ℚ) else 0)))) / (139/10) - 1) * 100) ∧
    generate_simulated_predictions [w] = [simulatedPrediction w] := by
  have h8 : (8 : ℚ) ≤ max 8 (min 25 (25/2 + (w.temp_max - 65) * (12/100)
      + (if w.precipitation > 1/10 then (-2 : ℚ) else 0)
      + (if weekday w.date ≥ 5 then (1/2 : ℚ) else 0))) := le_max_left _ _
  have h25 : max 8 (min 25 (25/2 + (w.temp_max - 65) * (12/100)
      + (if w.precipitation > 1/10 then (-2 : ℚ) else 0)
      + (if weekday w.date ≥ 5 then (1/2 : ℚ) else 0))) ≤ 25 :=
    max_le (by norm_num) (min_le_left _ _)
  refine ⟨rfl, ?_, ?_, ?_, ?_, rfl, rfl⟩
  · have := int_le_round2 _ 8 h8
    simpa [simulatedPrediction] using this
  · have := round2_le_int _ 25 h25
    simpa [simulatedPrediction] using this
  · show round2 (max 0 _) = round2 _ - 3/2
    rw [max_eq_right (by linarith : (0:ℚ) ≤ _ - 3/2)]
    exact round2_sub_three_halves _
  · exact round2_add_three_halves _

/-- Claim C2: `generate_predictions` is total, and whenever the artifacts are
not loaded, or any step of the model-backed path raises — feature building,
column selection, scaling or inference, all inside `model_path` — it returns
exactly the simulated predictions for the same weather sequence. -/
theorem c2_exceptions_fall_back (MODEL_LOADED : Bool)
    (infer : List FeatureRow → Except PyError (List ℚ)) (residual_std : ℚ)
    (weather_data : List WRec) (historical : List ℚ)
    (h : MODEL_LOADED = false ∨
      ∃ e, model_path infer residual_std weather_data historical = Except.error e) :
    generate_predictions MODEL_LOADED infer residual_std weather_data historical
      = generate_simulated_predictions weather_data := by
  rcases h with h | ⟨e, he⟩
  · subst h; rfl
  · cases MODEL_LOADED
    · rfl
    · unfold generate_predictions
      rw [he]
      simp

theorem c2_exceptions_fall_back_witness :
    generate_predictions true (fun _ => Except.ok [999]) 1
        [⟨738900, 70, 55, 125/2, 0, "Mild", "⛅"⟩] [10]
      = generate_simulated_predictions [⟨738900, 70, 55, 125/2, 0, "Mild", "⛅"⟩] :=
  c2_exceptions_fall_back true (fun _ => Except.ok [999]) 1
    [⟨738900, 70, 55, 125/2, 0, "Mild", "⛅"⟩] [10]
    (Or.inr ⟨PyError.nameError "today", rfl⟩)

/-- Claim C1 (code bug): with the artifacts loaded and a model returning a
raw 999 — which the claim says must surface as demand 40.0 — the returned
predictions are the heuristic ones, because `prepare_features` raises
`NameError` on the unbound name `today` (line 229, a local of `get_forecast`
only) before any inference can happen: the demand for 2024-01-15 (temp_max
70, dry, a Monday) is the heuristic 13.1, not 40.0. -/
theorem c1_model_output_never_returned :
    prepare_features [⟨738900, 70, 55, 125/2, 0, "Mild", "⛅"⟩] [10, 12, 14]
      = Except.error (PyError.nameError "today") ∧
    generate_predictions true (fun _ => Except.ok [999]) 1
        [⟨738900, 70, 55, 125/2, 0, "Mild", "⛅"⟩] [10, 12, 14]
      = generate_simulated_predictions [⟨738900, 70, 55, 125/2, 0, "Mild", "⛅"⟩] ∧
    (generate_predictions true (fun _ => Except.ok [999]) 1
        [⟨738900, 70, 55, 125/2, 0, "Mild", "⛅"⟩] [10, 12, 14]).map (fun p => p.demand)
      = [131/10] := by
  refine ⟨rfl, ?_, ?_⟩ <;> with_unfolding_all decide

/-- Claim C8 (code bug): part one — `prepare_features` never returns a
matrix, raising `NameError` on the unbound `today` for every non-empty
input; part two — in the dataframe-construction stage that the error cuts
off (`prepare_features_rows`), every row's short-horizon production columns
equal the mean of the last 7 historical values, the long-horizon columns
equal the all-time mean, and both rolling-std columns equal the standard
deviation of the last 14 values, identical broadcast constants in every
row. -/
theorem c8_production_features_broadcast :
    (∀ (weather_data : List WRec) (historical : List ℚ), weather_data ≠ [] →
      prepare_features weather_data historical
        = Except.error (PyError.nameError "today")) ∧
    (∀ (today : Date) (sin2pi cos2pi sqrtQ : ℚ → ℚ)
        (weather_data : List WRec) (historical : List ℚ) (i : ℕ) (r : FeatureRow),
      i < (prepare_features_rows today sin2pi cos2pi sqrtQ weather_data historical).length →
      let row := (prepare_features_rows today sin2pi cos2pi sqrtQ weather_data historical).getD i r
      row.prod_lag1 = recentAvg historical ∧
      row.prod_lag2 = recentAvg historical ∧
      row.prod_lag3 = recentAvg historical ∧
      row.prod_lag7 = recentAvg historical ∧
      row.prod_rolling_mean_3 = recentAvg historical ∧
      row.prod_rolling_mean_7 = recentAvg historical ∧
      row.prod_lag14 = listMean historical ∧
      row.prod_lag30 = listMean historical ∧
      row.prod_rolling_mean_14 = listMean historical ∧
      row.prod_rolling_mean_30 = listMean historical ∧
      row.prod_rolling_std_7 = recentStd sqrtQ historical ∧
      row.prod_rolling_std_14 = recentStd sqrtQ historical) := by
  constructor
  · intro weather_data historical h
    match weather_data with
    | [] => exact absurd rfl h
    | w :: ws => rfl
  · intro today s c sq weather_data historical i r hi
    rw [List.getD_eq_getElem _ _ hi]
    simp only [prepare_features_rows, List.getElem_map, List.getElem_range]
    simp

theorem c8_production_features_broadcast_witness :
    prepare_features [⟨738900, 58, 35, 93/2, 0, "Cool", "☁️"⟩] [10, 12, 14]
      = Except.error (PyError.nameError "today") ∧
    ((prepare_features_rows 738900 id id id
        [⟨738900, 58, 35, 93/2, 0, "Cool", "☁️"⟩] [10, 12, 14]).getD 0
        { temp_mean := 0, temp_max := 0, temp_min := 0, precip_total := 0,
          day_of_week := 0, month := 0, is_weekend := 0, prod_lag1 := 0,
          prod_lag2 := 0, prod_lag3 := 0, prod_lag7 := 0, prod_lag14 := 0,
          prod_lag30 := 0, prod_rolling_mean_3 := 0, prod_rolling_mean_7 := 0,
          prod_rolling_mean_14 := 0, prod_rolling_mean_30 := 0,
          prod_rolling_std_7 := 0, prod_rolling_std_14 := 0,
          temp_rolling_mean_7 := 0, temp_rolling_mean_14 := 0, day_sin := 0,
          day_cos := 0, dow_sin := 0, dow_cos := 0 }).prod_lag1
      = recentAvg [10, 12, 14] :=
  ⟨(c8_production_features_broadcast.1 _ _ (List.cons_ne_nil _ _)),
   (c8_production_features_broadcast.2 738900 id id id
      [⟨738900, 58, 35, 93/2, 0, "Cool", "☁️"⟩] [10, 12, 14] 0 _
      (by with_unfolding_all decide)).1⟩

/-- Claim C3: on every failure of the weather call — timeout, non-2xx
status, undecodable body, or a missing/empty `time` array — the fetcher
returns exactly the simulated sequence: ten records dated today (local
civil date, UTC−6) through today+9 in order, carrying the hardcoded
seasonal values of the pattern table; the sequence is a pure function of
today's date and is total. -/
theorem c3_weather_fallback (outcome : FetchOutcome) (today : Date)
    (h : fetchFailed outcome = true) :
    fetch_weather_forecast outcome today = generate_simulated_weather today ∧
    (generate_simulated_weather today).length = 10 ∧
    (∀ i, i < 10 → ((generate_simulated_weather today).getD i default).date = today + i) ∧
    (generate_simulated_weather today).map
        (fun r => (r.temp_max, r.temp_min, r.temp_mean, r.precipitation, r.condition, r.icon))
      = [(58, 35, 93/2, 0, "Cool", "☁️"), (68, 45, 113/2, 0, "Mild", "⛅"),
         (62, 42, 52, 0, "Cool", "☁️"), (55, 38, 93/2, 1/10, "Showers", "🌦️"),
         (58, 33, 91/2, 0, "Cool", "☁️"), (66, 39, 105/2, 0, "Mild", "⛅"),
         (70, 48, 59, 0, "Mild", "☀️"), (65, 45, 55, 2/10, "Showers", "🌧️"),
         (55, 40, 95/2, 0, "Cool", "☁️"), (60, 42, 51, 0, "Cool", "⛅")] := by
  refine ⟨?_, rfl, ?_, by with_unfolding_all rfl⟩
  · cases outcome with
    | timeout => rfl
    | httpError status => rfl
    | badJson => rfl
    | payload d =>
        have h2 : d.time.isEmpty = true := h
        show (if d.time.isEmpty then generate_simulated_weather today
            else successRecords d) = generate_simulated_weather today
        rw [h2]
        rfl
  · intro i hi
    interval_cases i <;> rfl

theorem c3_weather_fallback_witness :
    fetch_weather_forecast FetchOutcome.timeout 738900 = generate_simulated_weather 738900 ∧
    ((generate_simulated_weather 738900).getD 2 default).date = 738902 :=
  ⟨(c3_weather_fallback FetchOutcome.timeout 738900 rfl).1,
   (c3_weather_fallback FetchOutcome.timeout 738900 rfl).2.2.1 2 (by decide)⟩

/-- Claim C5 is false as stated: record index 3 of the simulated fallback
(as returned by the fetcher, e.g. on a timeout) carries
condition "Showers" / the showers icon, yet `get_weather_condition` applied
to that record's own temp_max (55) and precipitation (0.1) yields
("Cool", "☁️"), since 0.1 is not strictly greater than the 0.1 threshold. -/
theorem c5_condition_icon_counterexample :
    ((fetch_weather_forecast FetchOutcome.timeout 738900).getD 3 default).condition
      = "Showers" ∧
    ((fetch_weather_forecast FetchOutcome.timeout 738900).getD 3 default).temp_max = 55 ∧
    ((fetch_weather_forecast FetchOutcome.timeout 738900).getD 3 default).precipitation
      = 1/10 ∧
    get_weather_condition 55 (1/10) = ("Cool", "☁️") ∧
    (((fetch_weather_forecast FetchOutcome.timeout 738900).getD 3 default).condition,
        ((fetch_weather_forecast FetchOutcome.timeout 738900).getD 3 default).icon)
      ≠ get_weather_condition
          ((fetch_weather_forecast FetchOutcome.timeout 738900).getD 3 default).temp_max
          ((fetch_weather_forecast FetchOutcome.timeout 738900).getD 3 default).precipitation := by
  refine ⟨rfl, rfl, ?_, ?_, ?_⟩ <;> with_unfolding_all decide

/-- Entry `i` of the success-path record list, spelled out. -/
theorem successRecords_getD (d : DailyPayload) (i : ℕ) (r : WRec)
    (h : i < d.time.length) :
    (successRecords d).getD i r
      = mkRecFromRaw (d.time.getD i 0) (tMaxAt d i) (tMinAt d i) (precipAt d i) := by
  have hl : i < (successRecords d).length := by
    simpa [successRecords] using h
  rw [List.getD_eq_getElem _ _ hl]
  simp [successRecords]

/-- Claim C5 amended: for records mapped from a successful provider reply,
condition and icon are `get_weather_condition` of the record's raw
(pre-rounding) temp_max and precipitation — not of the rounded stored
fields, which are `round(·, 1)` / `round(·, 2)` of those raw values — while
the simulated fallback records carry hardcoded pairs that do not all follow
the rule. -/
theorem c5_success_condition_from_raw (d : DailyPayload) (i : ℕ) (r : WRec)
    (h : i < d.time.length) :
    (((successRecords d).getD i r).condition, ((successRecords d).getD i r).icon)
      = get_weather_condition (tMaxAt d i) (precipAt d i) ∧
    ((successRecords d).getD i r).temp_max = round1 (tMaxAt d i) ∧
    ((successRecords d).getD i r).precipitation = round2 (precipAt d i) := by
  rw [successRecords_getD d i r h]
  exact ⟨rfl, rfl, rfl⟩

theorem c5_success_condition_from_raw_witness :
    (((successRecords ⟨[738900], [some 70], [some 55], [some (104/1000)]⟩).getD 0 default).condition,
        ((successRecords ⟨[738900], [some 70], [some 55], [some (104/1000)]⟩).getD 0 default).icon)
      = get_weather_condition (tMaxAt ⟨[738900], [some 70], [some 55], [some (104/1000)]⟩ 0)
          (precipAt ⟨[738900], [some 70], [some 55], [some (104/1000)]⟩ 0) ∧
    ((successRecords ⟨[738900], [some 70], [some 55], [some (104/1000)]⟩).getD 0 default).condition
      = "Showers" ∧
    ((successRecords ⟨[738900], [some 70], [some 55], [some (104/1000)]⟩).getD 0 default).precipitation
      = 1/10 :=
  ⟨(c5_success_condition_from_raw ⟨[738900], [some 70], [some 55], [some (104/1000)]⟩ 0
      default (by decide)).1,
   by with_unfolding_all decide, by with_unfolding_all decide⟩

/-- Claim C9: the forecast list assembled by the `/api/forecast` handler
keeps only entries dated today (the local civil date, UTC−6) or later, and
an entry dated today has `is_today = true`. -/
theorem c9_past_dates_dropped (today : Date) (weather_data : List WRec)
    (predictions : List PredDict) (f : DayForecast)
    (h : f ∈ assemble_forecasts today weather_data predictions) :
    today ≤ f.date ∧ (f.date = today → f.is_today = true) := by
  unfold assemble_forecasts at h
  rcases List.mem_filterMap.mp h with ⟨wp, _, hf⟩
  by_cases hlt : wp.1.date < today
  · simp [hlt] at hf
  · rw [if_neg hlt] at hf
    injection hf with hfe
    subst hfe
    refine ⟨Nat.le_of_not_lt hlt, fun he => ?_⟩
    show decide (wp.1.date = today) = true
    exact decide_eq_true he

theorem c9_past_dates_dropped_witness :
    (assemble_forecasts 738900
        [⟨738899, 58, 35, 93/2, 0, "Cool", "☁️"⟩, ⟨738900, 68, 45, 113/2, 0, "Mild", "⛅"⟩]
        [⟨10, 9, 11, 0⟩, ⟨12, 11, 13, 0⟩]).map (fun f => f.date) = [738900] ∧
    738900 ≤ (mkDayForecast 738900 ⟨738900, 68, 45, 113/2, 0, "Mild", "⛅"⟩
        ⟨12, 11, 13, 0⟩).date ∧
    (mkDayForecast 738900 ⟨738900, 68, 45, 113/2, 0, "Mild", "⛅"⟩
        ⟨12, 11, 13, 0⟩).is_today = true :=
  ⟨by with_unfolding_all decide,
   (c9_past_dates_dropped 738900
      [⟨738899, 58, 35, 93/2, 0, "Cool", "☁️"⟩, ⟨738900, 68, 45, 113/2, 0, "Mild", "⛅"⟩]
      [⟨10, 9, 11, 0⟩, ⟨12, 11, 13, 0⟩]
      (mkDayForecast 738900 ⟨738900, 68, 45, 113/2, 0, "Mild", "⛅"⟩ ⟨12, 11, 13, 0⟩)
      (by simp [assemble_forecasts])).1,
   (c9_past_dates_dropped 738900
      [⟨738899, 58, 35, 93/2, 0, "Cool", "☁️"⟩, ⟨738900, 68, 45, 113/2, 0, "Mild", "⛅"⟩]
      [⟨10, 9, 11, 0⟩, ⟨12, 11, 13, 0⟩]
      (mkDayForecast 738900 ⟨738900, 68, 45, 113/2, 0, "Mild", "⛅"⟩ ⟨12, 11, 13, 0⟩)
      (by simp [assemble_forecasts])).2 rfl⟩

/-- Claim C10: a decoded reply with a non-empty `time` array is never routed
to the simulated fallback — the success mapping yields one record per listed
date — and a parallel array that is too short, or holds a null, contributes
the per-field default (temp_max 70, temp_min 55, precipitation 0); when both
temperatures default the stored temp_mean is the midpoint 62.5. -/
theorem c10_missing_values_defaulted (d : DailyPayload) (today : Date) (r : WRec)
    (h : d.time ≠ []) :
    fetch_weather_forecast (FetchOutcome.payload d) today = successRecords d ∧
    (successRecords d).length = d.time.length ∧
    (∀ i, i < d.time.length →
      ((successRecords d).getD i r).date = d.time.getD i 0 ∧
      ((d.temperature_2m_max.get? i = none ∨ d.temperature_2m_max.get? i = some none) →
        ((successRecords d).getD i r).temp_max = 70) ∧
      ((d.temperature_2m_min.get? i = none ∨ d.temperature_2m_min.get? i = some none) →
        ((successRecords d).getD i r).temp_min = 55) ∧
      ((d.precipitation_sum.get? i = none ∨ d.precipitation_sum.get? i = some none) →
        ((successRecords d).getD i r).precipitation = 0) ∧
      ((d.temperature_2m_max.get? i = none ∨ d.temperature_2m_max.get? i = some none) →
        (d.temperature_2m_min.get? i = none ∨ d.temperature_2m_min.get? i = some none) →
        ((successRecords d).getD i r).temp_mean = 125/2)) := by
  refine ⟨?_, by simp [successRecords], ?_⟩
  · have he : d.time.isEmpty = false := by
      cases hd : d.time
      · exact absurd hd h
      · rfl
    show (if d.time.isEmpty then generate_simulated_weather today else successRecords d)
      = successRecords d
    rw [he]
    rfl
  · intro i hi
    rw [successRecords_getD d i r hi]
    refine ⟨rfl, ?_, ?_, ?_, ?_⟩
    · intro hc
      have ht : tMaxAt d i = 70 := by
        rcases hc with hc | hc <;> (unfold tMaxAt; rw [hc])
      show round1 (tMaxAt d i) = 70
      rw [ht]
      with_unfolding_all decide
    · intro hc
      have ht : tMinAt d i = 55 := by
        rcases hc with hc | hc <;> (unfold tMinAt; rw [hc])
      show round1 (tMinAt d i) = 55
      rw [ht]
      with_unfolding_all decide
    · intro hc
      have ht : precipAt d i = 0 := by
        rcases hc with hc | hc <;> (unfold precipAt; rw [hc])
      show round2 (precipAt d i) = 0
      rw [ht]
      with_unfolding_all decide
    · intro hc1 hc2
      have h1 : tMaxAt d i = 70 := by
        rcases hc1 with hc | hc <;> (unfold tMaxAt; rw [hc])
      have h2 : tMinAt d i = 55 := by
        rcases hc2 with hc | hc <;> (unfold tMinAt; rw [hc])
      show round1 ((tMaxAt d i + tMinAt d i) / 2) = 125/2
      rw [h1, h2]
      with_unfolding_all decide

theorem c10_missing_values_defaulted_witness :
    fetch_weather_forecast
        (FetchOutcome.payload ⟨[738900, 738901], [some 90], [none, some 50], []⟩) 738900
      = successRecords ⟨[738900, 738901], [some 90], [none, some 50], []⟩ ∧
    (successRecords ⟨[738900, 738901], [some 90], [none, some 50], []⟩).length = 2 ∧
    ((successRecords ⟨[738900, 738901], [some 90], [none, some 50], []⟩).getD 1
        default).temp_max = 70 ∧
    ((successRecords ⟨[738900, 738901], [some 90], [none, some 50], []⟩).getD 1
        default).precipitation = 0 :=
  ⟨(c10_missing_values_defaulted ⟨[738900, 738901], [some 90], [none, some 50], []⟩
      738900 default (List.cons_ne_nil _ _)).1,
   (c10_missing_values_defaulted ⟨[738900, 738901], [some 90], [none, some 50], []⟩
      738900 default (List.cons_ne_nil _ _)).2.1,
   ((c10_missing_values_defaulted ⟨[738900, 738901], [some 90], [none, some 50], []⟩
      738900 default (List.cons_ne_nil _ _)).2.2 1 (by decide)).2.1 (Or.inl rfl),
   ((c10_missing_values_defaulted ⟨[738900, 738901], [some 90], [none, some 50], []⟩
      738900 default (List.cons_ne_nil _ _)).2.2 1 (by decide)).2.2.2.1 (Or.inl rfl)⟩

end WaterForecast
